import Mathlib

/-!
Verification of the n8n MCP server adapter layer.

The development embeds the two Python sources shallowly:
`src/n8n_mcp_server_standalone.py` (the `make_n8n_request` helper, the
`list_tools` catalog and the `call_tool` dispatcher) and
`src/src/n8n_mcp_server.py` (the six `@tool` handlers wrapped in
try/except and the `n8n_server` tool list).

JSON values decoded from the wire are modelled by the inductive `Json`
(numbers restricted to integers; this development never relies on float
payloads).  Python dynamic-typing failures (TypeError, AttributeError,
KeyError) that the standalone dispatcher would let escape are modelled by
the `Except PyExc` monad; a `.error` result of `call_tool` models an
exception propagating out of the handler.  The HTTP transport is a
function from the built request to an outcome, so that theorems can
quantify over every remote behaviour and count the issued requests.
-/

/-- Single-quote character, used to build Python exception texts. -/
def sQuot : String := (Char.ofNat 39).toString

/-- Opening curly brace as a string (for the Python repr of dicts). -/
def lcurly : String := (Char.ofNat 123).toString

/-- Closing curly brace as a string (for the Python repr of dicts). -/
def rcurly : String := (Char.ofNat 125).toString

/-- JSON values as decoded by `json.loads` / `response.json()`.
Numbers are modelled as integers. -/
inductive Json where
  | null : Json
  | bool (b : Bool) : Json
  | num (n : Int) : Json
  | str (s : String) : Json
  | arr (items : List Json) : Json
  | obj (members : List (String × Json)) : Json

/-- The Python type name of a decoded JSON value (for exception texts). -/
def Json.pyTypeName : Json → String
  | .null => "NoneType"
  | .bool _ => "bool"
  | .num _ => "int"
  | .str _ => "str"
  | .arr _ => "list"
  | .obj _ => "dict"

/-- Python truthiness of a decoded JSON value. -/
def Json.truthy : Json → Bool
  | .null => false
  | .bool b => b
  | .num n => !(n == 0)
  | .str s => !(s == "")
  | .arr items => !items.isEmpty
  | .obj members => !members.isEmpty

mutual

/-- Python `repr` of a decoded JSON value (string escaping is not
modelled; no theorem in this file depends on the repr of a string that
needs escaping). -/
def Json.pyRepr : Json → String
  | .null => "None"
  | .bool true => "True"
  | .bool false => "False"
  | .num n => toString n
  | .str s => sQuot ++ s ++ sQuot
  | .arr items => "[" ++ Json.pyReprItems items ++ "]"
  | .obj members => lcurly ++ Json.pyReprMembers members ++ rcurly

/-- Comma-joined reprs of list items. -/
def Json.pyReprItems : List Json → String
  | [] => ""
  | [x] => Json.pyRepr x
  | x :: xs => Json.pyRepr x ++ ", " ++ Json.pyReprItems xs

/-- Comma-joined reprs of dict members. -/
def Json.pyReprMembers : List (String × Json) → String
  | [] => ""
  | [(k, v)] => sQuot ++ k ++ sQuot ++ ": " ++ Json.pyRepr v
  | (k, v) :: kvs => sQuot ++ k ++ sQuot ++ ": " ++ Json.pyRepr v ++ ", " ++ Json.pyReprMembers kvs

end

/-- Python `str()` of a decoded JSON value, as interpolated by f-strings. -/
def pyStr : Json → String
  | .str s => s
  | j => j.pyRepr

/-- Python exceptions that the adapter code can raise. -/
inductive PyExc where
  | typeError (msg : String) : PyExc
  | attributeError (msg : String) : PyExc
  | keyError (key : String) : PyExc

/-- Python `str(e)` of an exception, as used by the SDK handlers in
their `except` branches. -/
def pyExcStr : PyExc → String
  | .typeError m => m
  | .attributeError m => m
  | .keyError k => sQuot ++ k ++ sQuot

/-- Python `key in j` for a string key (dict key test, list membership,
substring test on strings; TypeError on non-iterables). -/
def pyIn (key : String) (j : Json) : Except PyExc Bool :=
  match j with
  | .obj members => .ok (members.any fun kv => kv.1 == key)
  | .arr items => .ok (items.any fun x => match x with | .str s => s == key | _ => false)
  | .str s => .ok (decide (List.IsInfix key.data s.data))
  | j => .error (.typeError ("argument of type " ++ sQuot ++ j.pyTypeName ++ sQuot ++ " is not iterable"))

/-- Python `j[key]` for a string key. -/
def pyGetItem (j : Json) (key : String) : Except PyExc Json :=
  match j with
  | .obj members =>
    match List.lookup key members with
    | some v => .ok v
    | none => .error (.keyError key)
  | .str _ => .error (.typeError ("string indices must be integers"))
  | .arr _ => .error (.typeError ("list indices must be integers or slices, not str"))
  | j => .error (.typeError (sQuot ++ j.pyTypeName ++ sQuot ++ " object is not subscriptable"))

/-- Python `j.get(key, dflt)` (a dict method; AttributeError otherwise). -/
def pyGet (j : Json) (key : String) (dflt : Json) : Except PyExc Json :=
  match j with
  | .obj members => .ok ((List.lookup key members).getD dflt)
  | j => .error (.attributeError (sQuot ++ j.pyTypeName ++ sQuot ++ " object has no attribute " ++ sQuot ++ "get" ++ sQuot))

/-- Python `len(j)`. -/
def pyLen (j : Json) : Except PyExc Nat :=
  match j with
  | .str s => .ok s.length
  | .arr items => .ok items.length
  | .obj members => .ok members.length
  | j => .error (.typeError ("object of type " ++ sQuot ++ j.pyTypeName ++ sQuot ++ " has no len()"))

/-- Python `for x in j` (lists yield elements, strings yield
one-character strings, dicts yield their keys). -/
def pyIter (j : Json) : Except PyExc (List Json) :=
  match j with
  | .arr items => .ok items
  | .str s => .ok (s.data.map fun c => Json.str c.toString)
  | .obj members => .ok (members.map fun kv => Json.str kv.1)
  | j => .error (.typeError (sQuot ++ j.pyTypeName ++ sQuot ++ " object is not iterable"))

/-- Python `sep.join(items)` over an already materialised list. -/
def pyJoin (sep : String) : List String → String
  | [] => ""
  | [s] => s
  | s :: rest => s ++ sep ++ pyJoin sep rest

/-- `str.join` demands string items: coerce a list of decoded values,
raising TypeError on the first non-string (index not tracked). -/
def strItems : List Json → Except PyExc (List String)
  | [] => .ok []
  | .str s :: rest =>
    match strItems rest with
    | .ok l => .ok (s :: l)
    | .error e => .error e
  | _ :: _ => .error (.typeError ("sequence item: expected str instance"))

/-- f-string interpolation of a possibly missing argument
(`arguments.get` returns `None` for a missing key, printed as "None"). -/
def argStr : Option String → String
  | some s => s
  | none => "None"

/-- Sequencing in the exception monad (explicit, to keep proofs by
`split` mechanical). -/
def eb {α β : Type} (x : Except PyExc α) (f : α → Except PyExc β) : Except PyExc β :=
  match x with
  | .error e => .error e
  | .ok v => f v

/-! ## A model of `json.loads`

Recursive-descent parser with fuel.  Faithful to Python for the inputs
this development evaluates; known approximations: numbers are integers
only (no floats/exponents), `\u` escapes are rejected, and a leading
zero in a number is accepted. -/

/-- JSON whitespace. -/
def jsonWs (c : Char) : Bool :=
  c == ' ' || c == Char.ofNat 9 || c == Char.ofNat 10 || c == Char.ofNat 13

/-- Drop leading JSON whitespace. -/
def skipWs : List Char → List Char
  | [] => []
  | c :: cs => if jsonWs c then skipWs cs else c :: cs

/-- Decode a JSON string escape character. -/
def escChar (c : Char) : Option Char :=
  if c == Char.ofNat 34 then some (Char.ofNat 34)
  else if c == Char.ofNat 92 then some (Char.ofNat 92)
  else if c == '/' then some '/'
  else if c == 'n' then some (Char.ofNat 10)
  else if c == 't' then some (Char.ofNat 9)
  else if c == 'r' then some (Char.ofNat 13)
  else if c == 'b' then some (Char.ofNat 8)
  else if c == 'f' then some (Char.ofNat 12)
  else none

/-- Parse the remainder of a JSON string after the opening quote. -/
def parseStrChars : List Char → Option (String × List Char)
  | [] => none
  | c :: cs =>
    if c == Char.ofNat 34 then some ("", cs)
    else if c == Char.ofNat 92 then
      match cs with
      | [] => none
      | e :: cs2 =>
        match escChar e with
        | none => none
        | some ec =>
          match parseStrChars cs2 with
          | none => none
          | some (s, rest) => some (ec.toString ++ s, rest)
    else
      match parseStrChars cs with
      | none => none
      | some (s, rest) => some (c.toString ++ s, rest)

/-- Parse a JSON integer (optionally negative). -/
def parseIntLit (cs : List Char) : Option (Json × List Char) :=
  let (neg, cs1) :=
    match cs with
    | c :: rest => if c == '-' then (true, rest) else (false, cs)
    | [] => (false, cs)
  let (ds, rest) := cs1.span Char.isDigit
  if ds.isEmpty then none
  else
    let n : Nat := ds.foldl (fun acc c => acc * 10 + (c.toNat - 48)) 0
    some (Json.num (if neg then -(n : Int) else (n : Int)), rest)

mutual

/-- Parse one JSON value (fuel-bounded). -/
def parseVal : Nat → List Char → Option (Json × List Char)
  | 0, _ => none
  | Nat.succ fuel, cs =>
    match skipWs cs with
    | 'n' :: 'u' :: 'l' :: 'l' :: rest => some (Json.null, rest)
    | 't' :: 'r' :: 'u' :: 'e' :: rest => some (Json.bool true, rest)
    | 'f' :: 'a' :: 'l' :: 's' :: 'e' :: rest => some (Json.bool false, rest)
    | c :: rest =>
      if c == Char.ofNat 34 then
        match parseStrChars rest with
        | none => none
        | some (s, r2) => some (Json.str s, r2)
      else if c == Char.ofNat 91 then
        match skipWs rest with
        | c2 :: r2 =>
          if c2 == Char.ofNat 93 then some (Json.arr [], r2)
          else
            match parseItems fuel (c2 :: r2) with
            | none => none
            | some (vs, r3) => some (Json.arr vs, r3)
        | [] => none
      else if c == Char.ofNat 123 then
        match skipWs rest with
        | c2 :: r2 =>
          if c2 == Char.ofNat 125 then some (Json.obj [], r2)
          else
            match parseMembers fuel (c2 :: r2) with
            | none => none
            | some (kvs, r3) => some (Json.obj kvs, r3)
        | [] => none
      else parseIntLit (c :: rest)
    | [] => none

/-- Parse the comma-separated elements of a non-empty JSON array,
including the closing bracket. -/
def parseItems : Nat → List Char → Option (List Json × List Char)
  | 0, _ => none
  | Nat.succ fuel, cs =>
    match parseVal fuel cs with
    | none => none
    | some (v, rest) =>
      match skipWs rest with
      | c :: r2 =>
        if c == ',' then
          match parseItems fuel r2 with
          | none => none
          | some (vs, r3) => some (v :: vs, r3)
        else if c == Char.ofNat 93 then some ([v], r2)
        else none
      | [] => none

/-- Parse the comma-separated members of a non-empty JSON object,
including the closing brace. -/
def parseMembers : Nat → List Char → Option (List (String × Json) × List Char)
  | 0, _ => none
  | Nat.succ fuel, cs =>
    match skipWs cs with
    | c :: rest =>
      if c == Char.ofNat 34 then
        match parseStrChars rest with
        | none => none
        | some (k, r2) =>
          match skipWs r2 with
          | c2 :: r3 =>
            if c2 == ':' then
              match parseVal fuel r3 with
              | none => none
              | some (v, r4) =>
                match skipWs r4 with
                | c3 :: r5 =>
                  if c3 == ',' then
                    match parseMembers fuel r5 with
                    | none => none
                    | some (kvs, r6) => some ((k, v) :: kvs, r6)
                  else if c3 == Char.ofNat 125 then some ([(k, v)], r5)
                  else none
                | [] => none
            else none
          | [] => none
      else none
    | [] => none

end

/-- Model of Python `json.loads`: parse one value and demand that only
whitespace remains. -/
def json_loads (s : String) : Option Json :=
  match parseVal (s.length + 1) s.data with
  | none => none
  | some (v, rest) => if (skipWs rest).isEmpty then some v else none

/-! ## Configuration, requests and the HTTP helper -/

/-- The environment configuration consumed by the adapter
(`N8N_BASE_URL`, `N8N_API_KEY`); the TLS-skip flag does not influence
any observable modelled here. -/
structure Config where
  baseUrl : String
  apiKey : String

/-- HTTP methods used by the adapter. -/
inductive Method where
  | GET : Method
  | POST : Method
  | PATCH : Method
  | DELETE : Method
deriving DecidableEq

/-- One outbound HTTP request as issued by `make_n8n_request`:
the full URL and the JSON body passed via `json=` (only POST and PATCH
send a body). -/
structure RemoteRequest where
  method : Method
  url : String
  body : Option Json

/-- The body that `make_n8n_request` attaches to the session call:
the GET and DELETE branches pass no `json=` argument. -/
def requestBody (method : Method) (data : Option Json) : Option Json :=
  match method with
  | .GET => none
  | .DELETE => none
  | .POST => data
  | .PATCH => data

/-- Outcome of one attempted HTTP exchange.  `response` carries the
status, the result of decoding the body as JSON (`Except.error`
models `response.json()` raising), and the raw body text read by
`response.text()`.  `failure` models any connection-level exception. -/
inductive HttpOutcome where
  | response (status : Nat) (jsonBody : Except String Json) (textBody : String) : HttpOutcome
  | failure (msg : String) : HttpOutcome

/-- A mocked transport: what the remote service does with a request. -/
def Transport : Type := RemoteRequest → HttpOutcome

/-- The error dict returned on every failure path of the helper. -/
def errorObj (msg : String) : Json := Json.obj [("error", Json.str msg)]

/-- The configuration-error message of `make_n8n_request`. -/
def noKeyMsg : String :=
  "N8N_API_KEY not configured. Set environment variable N8N_API_KEY."

/-- `make_n8n_request` from both sources (they are identical): check the
credential, build the URL, issue one request, classify the outcome.
Returns the result dict together with the list of issued requests. -/
def make_n8n_request (cfg : Config) (t : Transport) (method : Method)
    (endpoint : String) (data : Option Json) : Json × List RemoteRequest :=
  if cfg.apiKey = "" then
    (errorObj noKeyMsg, [])
  else
    let url := cfg.baseUrl ++ "/api/v1/" ++ endpoint
    let req : RemoteRequest := ⟨method, url, requestBody method data⟩
    match t req with
    | .failure msg => (errorObj ("Request failed: " ++ msg), [req])
    | .response status jsonBody textBody =>
      match method with
      | .GET =>
        if status = 200 then
          match jsonBody with
          | .ok j => (j, [req])
          | .error e => (errorObj ("Request failed: " ++ e), [req])
        else (errorObj ("HTTP " ++ toString status ++ ": " ++ textBody), [req])
      | .POST =>
        if status = 200 ∨ status = 201 then
          match jsonBody with
          | .ok j => (j, [req])
          | .error e => (errorObj ("Request failed: " ++ e), [req])
        else (errorObj ("HTTP " ++ toString status ++ ": " ++ textBody), [req])
      | .PATCH =>
        if status = 200 then
          match jsonBody with
          | .ok j => (j, [req])
          | .error e => (errorObj ("Request failed: " ++ e), [req])
        else (errorObj ("HTTP " ++ toString status ++ ": " ++ textBody), [req])
      | .DELETE =>
        if status = 200 ∨ status = 204 then
          (Json.obj [("success", Json.bool true)], [req])
        else (errorObj ("HTTP " ++ toString status ++ ": " ++ textBody), [req])


/-- The element-wise accumulation loops of the handlers
(`workflow_list.append(...)` and the list comprehensions), with the
first exception propagating. -/
def pyListComp {β : Type} (f : Json → Except PyExc β) : List Json → Except PyExc (List β)
  | [] => .ok []
  | x :: xs => eb (f x) fun b => eb (pyListComp f xs) fun rest => .ok (b :: rest)

/-! ## Per-tool response rendering

These functions transcribe the bodies of the tool branches of
`call_tool` in the standalone server (the renders of `list_workflows`,
`execute_workflow`, `get_execution`, `activate_workflow` and
`deactivate_workflow` are textually identical in the SDK handlers of
`src/src/n8n_mcp_server.py`; `get_workflow` differs and gets its own
function).  Each returns the rendered text together with the
`is_error` flag that the SDK variant attaches. -/

/-- One line of the `list_workflows` listing:
`- {name} (ID: {id}) [Active|Inactive]`. -/
def renderWorkflowLine (wf : Json) : Except PyExc String :=
  eb (pyGet wf ("name") (Json.str ("Unnamed"))) fun nm =>
  eb (pyGet wf ("id") Json.null) fun idv =>
  eb (pyGet wf ("active") Json.null) fun act =>
  .ok ("- " ++ pyStr nm ++ " (ID: " ++ pyStr idv ++ ") [" ++
       (if act.truthy then "Active" else "Inactive") ++ "]")

/-- Rendering of the `list_workflows` result dict. -/
def renderListWorkflows (result : Json) : Except PyExc (String × Bool) :=
  eb (pyIn ("error") result) fun hasErr =>
  if hasErr then
    eb (pyGetItem result ("error")) fun v => .ok ("Error: " ++ pyStr v, true)
  else
  eb (pyGet result ("data") (Json.arr [])) fun workflows =>
  if !workflows.truthy then .ok ("No workflows found in n8n.", false)
  else
  eb (pyIter workflows) fun items =>
  eb (pyListComp renderWorkflowLine items) fun lines =>
  .ok ("Found " ++ toString items.length ++ " workflow(s):\n" ++ pyJoin "\n" lines, false)

/-- One node line of the standalone `get_workflow` rendering:
`  - {name} ({type})`. -/
def renderNodeLine (node : Json) : Except PyExc String :=
  eb (pyGet node ("type") (Json.str ("Unknown"))) fun ty =>
  eb (pyGet node ("name") (Json.str ("Unnamed"))) fun nm =>
  .ok ("  - " ++ pyStr nm ++ " (" ++ pyStr ty ++ ")")

/-- The standalone `get_workflow` rendering applied after the handled
payload `wf` has been chosen: header lines, per-node lines, tag line. -/
def renderGetWorkflowBody (wf : Json) : Except PyExc (String × Bool) :=
  eb (pyGet wf ("nodes") (Json.arr [])) fun nodes =>
  eb (pyGet wf ("connections") (Json.obj [])) fun connections =>
  eb (pyGet wf ("name") (Json.str ("Unnamed"))) fun nm =>
  eb (pyGet wf ("id") Json.null) fun idv =>
  eb (pyGet wf ("active") Json.null) fun act =>
  eb (pyLen nodes) fun nodesLen =>
  eb (pyLen connections) fun connLen =>
  eb (if nodes.truthy then
        eb (pyIter nodes) fun nitems =>
        eb (pyListComp renderNodeLine nitems) fun nlines =>
        .ok ("\nNodes in workflow:" :: nlines)
      else .ok ([] : List String)) fun info2 =>
  eb (pyGet wf ("tags") Json.null) fun tagsv =>
  eb (if tagsv.truthy then
        eb (pyGet wf ("tags") (Json.arr [])) fun tagsList =>
        eb (pyIter tagsList) fun titems =>
        eb (pyListComp (fun tag => pyGet tag ("name") (Json.str (""))) titems) fun tnamesJ =>
        eb (strItems tnamesJ) fun tnames =>
        .ok (["\nTags: " ++ pyJoin ", " tnames])
      else .ok ([] : List String)) fun info3 =>
  .ok (pyJoin "\n"
        ((["Workflow: " ++ pyStr nm,
           "ID: " ++ pyStr idv,
           "Status: " ++ (if act.truthy then "Active" else "Inactive"),
           "Nodes: " ++ toString nodesLen,
           "Connections: " ++ toString connLen]
          ++ info2) ++ info3), false)

/-- Rendering of the `get_workflow` result in the standalone server:
unwraps `data` only when the key is present, falls back to the raw
payload otherwise, and lists the nodes (via `renderGetWorkflowBody`). -/
def renderGetWorkflowStandalone (result : Json) : Except PyExc (String × Bool) :=
  eb (pyIn ("error") result) fun hasErr =>
  if hasErr then
    eb (pyGetItem result ("error")) fun v => .ok ("Error: " ++ pyStr v, true)
  else
  eb (pyIn ("data") result) fun hasData =>
  eb (if hasData then pyGet result ("data") (Json.obj []) else .ok result) fun wf =>
  renderGetWorkflowBody wf

/-- The SDK `get_workflow` rendering applied after the `data` unwrap:
header lines and tag line, no per-node lines. -/
def renderGetWorkflowSdkBody (wf : Json) : Except PyExc (String × Bool) :=
  eb (pyGet wf ("name") (Json.str ("Unnamed"))) fun nm =>
  eb (pyGet wf ("id") Json.null) fun idv =>
  eb (pyGet wf ("active") Json.null) fun act =>
  eb (pyGet wf ("nodes") (Json.arr [])) fun nodes =>
  eb (pyLen nodes) fun nodesLen =>
  eb (pyGet wf ("connections") (Json.obj [])) fun connections =>
  eb (pyLen connections) fun connLen =>
  eb (pyGet wf ("tags") Json.null) fun tagsv =>
  eb (if tagsv.truthy then
        eb (pyGet wf ("tags") (Json.arr [])) fun tagsList =>
        eb (pyIter tagsList) fun titems =>
        eb (pyListComp (fun tag => pyGet tag ("name") (Json.str (""))) titems) fun tnamesJ =>
        eb (strItems tnamesJ) fun tnames =>
        .ok (["Tags: " ++ pyJoin ", " tnames])
      else .ok ([] : List String)) fun info3 =>
  .ok (pyJoin "\n"
        (["Workflow: " ++ pyStr nm,
          "ID: " ++ pyStr idv,
          "Status: " ++ (if act.truthy then "Active" else "Inactive"),
          "Nodes: " ++ toString nodesLen,
          "Connections: " ++ toString connLen]
         ++ info3), false)

/-- Rendering of the `get_workflow` result in the SDK handler of
`src/src/n8n_mcp_server.py`: always takes the `data` field (empty dict
when absent), renders no per-node lines, and its tag line has no leading
blank line. -/
def renderGetWorkflowSdk (result : Json) : Except PyExc (String × Bool) :=
  eb (pyIn ("error") result) fun hasErr =>
  if hasErr then
    eb (pyGetItem result ("error")) fun v => .ok ("Error: " ++ pyStr v, true)
  else
  eb (pyGet result ("data") (Json.obj [])) fun wf =>
  renderGetWorkflowSdkBody wf

/-- Rendering of the `execute_workflow` result dict. -/
def renderExecute (result : Json) : Except PyExc (String × Bool) :=
  eb (pyIn ("error") result) fun hasErr =>
  if hasErr then
    eb (pyGetItem result ("error")) fun v => .ok ("Error: " ++ pyStr v, true)
  else
  eb (pyGet result ("data") (Json.obj [])) fun executionData =>
  eb (pyGet executionData ("id") (Json.str ("unknown"))) fun eid =>
  eb (pyGet executionData ("finished") (Json.bool false)) fun fin =>
  .ok ("Workflow executed!\nExecution ID: " ++ pyStr eid ++ "\nStatus: " ++
       (if fin.truthy then "Finished" else "Running"), false)

/-- Rendering of the `get_execution` result dict. -/
def renderGetExecution (result : Json) : Except PyExc (String × Bool) :=
  eb (pyIn ("error") result) fun hasErr =>
  if hasErr then
    eb (pyGetItem result ("error")) fun v => .ok ("Error: " ++ pyStr v, true)
  else
  eb (pyGet result ("data") (Json.obj [])) fun execution =>
  eb (pyGet execution ("id") Json.null) fun eid =>
  eb (pyGet execution ("workflowData") (Json.obj [])) fun wfd =>
  eb (pyGet wfd ("name") (Json.str ("Unknown"))) fun wnm =>
  eb (pyGet execution ("finished") Json.null) fun fin =>
  eb (pyGet execution ("mode") (Json.str ("unknown"))) fun mode =>
  eb (pyGet execution ("stoppedAt") Json.null) fun sa =>
  .ok (pyJoin "\n"
        (["Execution ID: " ++ pyStr eid,
          "Workflow: " ++ pyStr wnm,
          "Status: " ++ (if fin.truthy then "Finished" else "Running"),
          "Mode: " ++ pyStr mode]
         ++ (if sa.truthy then ["Stopped at: " ++ pyStr sa] else [])), false)

/-- Rendering of the `activate_workflow` result dict. -/
def renderActivate (workflow_id : String) (result : Json) : Except PyExc (String × Bool) :=
  eb (pyIn ("error") result) fun hasErr =>
  if hasErr then
    eb (pyGetItem result ("error")) fun v => .ok ("Error: " ++ pyStr v, true)
  else .ok ("Workflow " ++ workflow_id ++ " activated successfully!", false)

/-- Rendering of the `deactivate_workflow` result dict. -/
def renderDeactivate (workflow_id : String) (result : Json) : Except PyExc (String × Bool) :=
  eb (pyIn ("error") result) fun hasErr =>
  if hasErr then
    eb (pyGetItem result ("error")) fun v => .ok ("Error: " ++ pyStr v, true)
  else .ok ("Workflow " ++ workflow_id ++ " deactivated successfully!", false)

/-! ## The standalone dispatcher `call_tool` -/

/-- `call_tool` of the standalone server.  The first component is the
list of returned `TextContent` texts (`Except.error` models an uncaught
Python exception escaping the handler — the dispatcher has no
try/except); the second component is the list of issued HTTP requests. -/
def call_tool (cfg : Config) (t : Transport) (name : String)
    (arguments : List (String × String)) :
    Except PyExc (List String) × List RemoteRequest :=
  if name = "list_workflows" then
    ((renderListWorkflows
        (make_n8n_request cfg t Method.GET ("workflows") none).1).map fun p => [p.1],
     (make_n8n_request cfg t Method.GET ("workflows") none).2)
  else if name = "get_workflow" then
    ((renderGetWorkflowStandalone
        (make_n8n_request cfg t Method.GET
          ("workflows/" ++ argStr (List.lookup ("workflow_id") arguments)) none).1).map
       fun p => [p.1],
     (make_n8n_request cfg t Method.GET
        ("workflows/" ++ argStr (List.lookup ("workflow_id") arguments)) none).2)
  else if name = "execute_workflow" then
    if (List.lookup ("input_data") arguments).getD ("\x7b\x7d") = "" then
      ((renderExecute
          (make_n8n_request cfg t Method.POST
            ("workflows/" ++ argStr (List.lookup ("workflow_id") arguments) ++ "/execute")
            (some (Json.obj []))).1).map fun p => [p.1],
       (make_n8n_request cfg t Method.POST
          ("workflows/" ++ argStr (List.lookup ("workflow_id") arguments) ++ "/execute")
          (some (Json.obj []))).2)
    else
      match json_loads ((List.lookup ("input_data") arguments).getD ("\x7b\x7d")) with
      | none => (Except.ok ["Error: input_data must be valid JSON string"], [])
      | some data_payload =>
        ((renderExecute
            (make_n8n_request cfg t Method.POST
              ("workflows/" ++ argStr (List.lookup ("workflow_id") arguments) ++ "/execute")
              (some data_payload)).1).map fun p => [p.1],
         (make_n8n_request cfg t Method.POST
            ("workflows/" ++ argStr (List.lookup ("workflow_id") arguments) ++ "/execute")
            (some data_payload)).2)
  else if name = "get_execution" then
    ((renderGetExecution
        (make_n8n_request cfg t Method.GET
          ("executions/" ++ argStr (List.lookup ("execution_id") arguments)) none).1).map
       fun p => [p.1],
     (make_n8n_request cfg t Method.GET
        ("executions/" ++ argStr (List.lookup ("execution_id") arguments)) none).2)
  else if name = "activate_workflow" then
    ((renderActivate (argStr (List.lookup ("workflow_id") arguments))
        (make_n8n_request cfg t Method.PATCH
          ("workflows/" ++ argStr (List.lookup ("workflow_id") arguments))
          (some (Json.obj [("active", Json.bool true)]))).1).map fun p => [p.1],
     (make_n8n_request cfg t Method.PATCH
        ("workflows/" ++ argStr (List.lookup ("workflow_id") arguments))
        (some (Json.obj [("active", Json.bool true)]))).2)
  else if name = "deactivate_workflow" then
    ((renderDeactivate (argStr (List.lookup ("workflow_id") arguments))
        (make_n8n_request cfg t Method.PATCH
          ("workflows/" ++ argStr (List.lookup ("workflow_id") arguments))
          (some (Json.obj [("active", Json.bool false)]))).1).map fun p => [p.1],
     (make_n8n_request cfg t Method.PATCH
        ("workflows/" ++ argStr (List.lookup ("workflow_id") arguments))
        (some (Json.obj [("active", Json.bool false)]))).2)
  else
    (Except.ok ["Unknown tool: " ++ name], [])

/-- The six tool names dispatched by `call_tool`. -/
def sixToolNames : List String :=
  ["list_workflows", "get_workflow", "execute_workflow",
   "get_execution", "activate_workflow", "deactivate_workflow"]

/-! ## The SDK handlers of `src/src/n8n_mcp_server.py`

Each handler body is wrapped in `try/except` in the source; `tryExceptR`
models that wrapper, turning any Python exception into the
`Failed to ...` error envelope. -/

/-- The `{content, is_error}` envelope returned by an SDK handler,
reduced to its rendered text and error flag. -/
structure ToolResult where
  text : String
  isError : Bool

/-- The `except Exception as e` wrapper of every SDK handler. -/
def tryExceptR (failMsg : String) (x : Except PyExc (String × Bool)) : ToolResult :=
  match x with
  | .ok p => ⟨p.1, p.2⟩
  | .error e => ⟨failMsg ++ pyExcStr e, true⟩

/-- Python `args[key]` on the arguments dict (KeyError when missing). -/
def argsGetItem (args : List (String × String)) (key : String) : Except PyExc String :=
  match List.lookup key args with
  | some v => .ok v
  | none => .error (.keyError key)

/-- SDK handler `list_workflows`. -/
def sdk_list_workflows (cfg : Config) (t : Transport)
    (_args : List (String × String)) : ToolResult × List RemoteRequest :=
  (tryExceptR ("Failed to list workflows: ")
     (renderListWorkflows (make_n8n_request cfg t Method.GET ("workflows") none).1),
   (make_n8n_request cfg t Method.GET ("workflows") none).2)

/-- SDK handler `get_workflow` (the KeyError raised by
`args["workflow_id"]` is caught by the same try/except). -/
def sdk_get_workflow (cfg : Config) (t : Transport)
    (args : List (String × String)) : ToolResult × List RemoteRequest :=
  match argsGetItem args ("workflow_id") with
  | .error e => (⟨"Failed to get workflow: " ++ pyExcStr e, true⟩, [])
  | .ok workflow_id =>
    (tryExceptR ("Failed to get workflow: ")
       (renderGetWorkflowSdk
         (make_n8n_request cfg t Method.GET ("workflows/" ++ workflow_id) none).1),
     (make_n8n_request cfg t Method.GET ("workflows/" ++ workflow_id) none).2)

/-- SDK handler `execute_workflow`: `workflow_id` is read first (its
KeyError is caught), then `input_data` is parsed only when present and
truthy, then the POST is issued. -/
def sdk_execute_workflow (cfg : Config) (t : Transport)
    (args : List (String × String)) : ToolResult × List RemoteRequest :=
  match argsGetItem args ("workflow_id") with
  | .error e => (⟨"Failed to execute workflow: " ++ pyExcStr e, true⟩, [])
  | .ok workflow_id =>
    match (match List.lookup ("input_data") args with
           | some s => if s == "" then none else some s
           | none => none) with
    | some s =>
      match json_loads s with
      | none => (⟨"Error: input_data must be valid JSON string", true⟩, [])
      | some data_payload =>
        (tryExceptR ("Failed to execute workflow: ")
           (renderExecute
             (make_n8n_request cfg t Method.POST
               ("workflows/" ++ workflow_id ++ "/execute") (some data_payload)).1),
         (make_n8n_request cfg t Method.POST
           ("workflows/" ++ workflow_id ++ "/execute") (some data_payload)).2)
    | none =>
      (tryExceptR ("Failed to execute workflow: ")
         (renderExecute
           (make_n8n_request cfg t Method.POST
             ("workflows/" ++ workflow_id ++ "/execute") (some (Json.obj []))).1),
       (make_n8n_request cfg t Method.POST
         ("workflows/" ++ workflow_id ++ "/execute") (some (Json.obj []))).2)

/-- SDK handler `get_execution`. -/
def sdk_get_execution (cfg : Config) (t : Transport)
    (args : List (String × String)) : ToolResult × List RemoteRequest :=
  match argsGetItem args ("execution_id") with
  | .error e => (⟨"Failed to get execution: " ++ pyExcStr e, true⟩, [])
  | .ok execution_id =>
    (tryExceptR ("Failed to get execution: ")
       (renderGetExecution
         (make_n8n_request cfg t Method.GET ("executions/" ++ execution_id) none).1),
     (make_n8n_request cfg t Method.GET ("executions/" ++ execution_id) none).2)

/-- SDK handler `activate_workflow`. -/
def sdk_activate_workflow (cfg : Config) (t : Transport)
    (args : List (String × String)) : ToolResult × List RemoteRequest :=
  match argsGetItem args ("workflow_id") with
  | .error e => (⟨"Failed to activate workflow: " ++ pyExcStr e, true⟩, [])
  | .ok workflow_id =>
    (tryExceptR ("Failed to activate workflow: ")
       (renderActivate workflow_id
         (make_n8n_request cfg t Method.PATCH ("workflows/" ++ workflow_id)
           (some (Json.obj [("active", Json.bool true)]))).1),
     (make_n8n_request cfg t Method.PATCH ("workflows/" ++ workflow_id)
       (some (Json.obj [("active", Json.bool true)]))).2)

/-- SDK handler `deactivate_workflow`. -/
def sdk_deactivate_workflow (cfg : Config) (t : Transport)
    (args : List (String × String)) : ToolResult × List RemoteRequest :=
  match argsGetItem args ("workflow_id") with
  | .error e => (⟨"Failed to deactivate workflow: " ++ pyExcStr e, true⟩, [])
  | .ok workflow_id =>
    (tryExceptR ("Failed to deactivate workflow: ")
       (renderDeactivate workflow_id
         (make_n8n_request cfg t Method.PATCH ("workflows/" ++ workflow_id)
           (some (Json.obj [("active", Json.bool false)]))).1),
     (make_n8n_request cfg t Method.PATCH ("workflows/" ++ workflow_id)
       (some (Json.obj [("active", Json.bool false)]))).2)

/-- The tool list handed to `create_sdk_mcp_server` (lines 384-396 of
`src/src/n8n_mcp_server.py`), in source order. -/
def n8n_server_tools :
    List (Config → Transport → List (String × String) → ToolResult × List RemoteRequest) :=
  [sdk_list_workflows, sdk_get_workflow, sdk_execute_workflow,
   sdk_get_execution, sdk_activate_workflow, sdk_deactivate_workflow]

/-! ## The standalone tool catalog `list_tools` -/

/-- An MCP tool descriptor as returned by `list_tools`. -/
structure McpTool where
  name : String
  description : String
  inputSchema : Json

/-- `list_tools` of the standalone server, transcribed verbatim.  Taking
a `Unit` mirrors it being a nullary call performed on every catalog
query. -/
def list_tools (_ : Unit) : List McpTool :=
  [⟨"list_workflows",
    "List all workflows in n8n. Returns workflow names, IDs, and active status.",
    Json.obj [("type", Json.str ("object")),
              ("properties", Json.obj []),
              ("required", Json.arr [])]⟩,
   ⟨"get_workflow",
    "Get detailed information about a specific workflow by ID.",
    Json.obj [("type", Json.str ("object")),
              ("properties", Json.obj
                [("workflow_id", Json.obj
                  [("type", Json.str ("string")),
                   ("description", Json.str ("The ID of the workflow"))])]),
              ("required", Json.arr [Json.str ("workflow_id")])]⟩,
   ⟨"execute_workflow",
    "Execute a workflow by ID. Optionally pass input data as JSON string.",
    Json.obj [("type", Json.str ("object")),
              ("properties", Json.obj
                [("workflow_id", Json.obj
                  [("type", Json.str ("string")),
                   ("description", Json.str ("The ID of the workflow to execute"))]),
                 ("input_data", Json.obj
                  [("type", Json.str ("string")),
                   ("description", Json.str ("Optional JSON string with input data for the workflow"))])]),
              ("required", Json.arr [Json.str ("workflow_id")])]⟩,
   ⟨"get_execution",
    "Get the status and result of a workflow execution by execution ID.",
    Json.obj [("type", Json.str ("object")),
              ("properties", Json.obj
                [("execution_id", Json.obj
                  [("type", Json.str ("string")),
                   ("description", Json.str ("The execution ID to check"))])]),
              ("required", Json.arr [Json.str ("execution_id")])]⟩,
   ⟨"activate_workflow",
    "Activate (enable) a workflow by ID so it can run automatically.",
    Json.obj [("type", Json.str ("object")),
              ("properties", Json.obj
                [("workflow_id", Json.obj
                  [("type", Json.str ("string")),
                   ("description", Json.str ("The ID of the workflow to activate"))])]),
              ("required", Json.arr [Json.str ("workflow_id")])]⟩,
   ⟨"deactivate_workflow",
    "Deactivate (disable) a workflow by ID to stop it from running automatically.",
    Json.obj [("type", Json.str ("object")),
              ("properties", Json.obj
                [("workflow_id", Json.obj
                  [("type", Json.str ("string")),
                   ("description", Json.str ("The ID of the workflow to deactivate"))])]),
              ("required", Json.arr [Json.str ("workflow_id")])]⟩]

/-- The property names declared by the schema of a descriptor, in order. -/
def schemaProps (schema : Json) : List String :=
  match (List.lookup ("properties") (match schema with | Json.obj kvs => kvs | _ => [])) with
  | some (Json.obj props) => props.map fun kv => kv.1
  | _ => []

/-- The required argument names declared by the schema of a descriptor. -/
def schemaRequired (schema : Json) : List String :=
  match (List.lookup ("required") (match schema with | Json.obj kvs => kvs | _ => [])) with
  | some (Json.arr items) => items.filterMap fun j => match j with
    | Json.str s => some s
    | _ => none
  | _ => []

/-- Summary of a descriptor used to compare the catalog with the spec:
name, required argument names, all argument names. -/
def toolSummary (tool : McpTool) : String × List String × List String :=
  (tool.name, schemaRequired tool.inputSchema, schemaProps tool.inputSchema)

/-! ## Helper lemmas -/

/-- Sequencing an error is the error. -/
@[simp] theorem eb_error {α β : Type} (e : PyExc) (f : α → Except PyExc β) :
    eb (Except.error e) f = Except.error e := rfl

/-- Sequencing a success applies the continuation. -/
@[simp] theorem eb_ok {α β : Type} (v : α) (f : α → Except PyExc β) :
    eb (Except.ok v) f = f v := rfl

/-- A string with a non-empty left factor is non-empty. -/
theorem append_ne_left (a b : String) (ha : a ≠ "") : a ++ b ≠ "" := by
  intro h
  apply ha
  have hl := congrArg String.length h
  rw [String.length_append] at hl
  have h0 : ("" : String).length = 0 := rfl
  rw [h0] at hl
  have ha0 : a.length = 0 := by omega
  cases a with
  | mk data =>
    cases data with
    | nil => rfl
    | cons c cs => simp [String.length] at ha0

/-- `pyJoin` of a non-empty list starts with its head. -/
theorem pyJoin_cons_eq (sep a : String) (l : List String) :
    ∃ r, pyJoin sep (a :: l) = a ++ r := by
  cases l with
  | nil => exact ⟨"", by simp [pyJoin]⟩
  | cons b r => exact ⟨sep ++ pyJoin sep (b :: r), by simp [pyJoin, String.append_assoc]⟩

/-- `pyJoin` of a list with a non-empty head is non-empty. -/
theorem pyJoin_ne (sep a : String) (l : List String) (ha : a ≠ "") :
    pyJoin sep (a :: l) ≠ "" := by
  obtain ⟨r, hr⟩ := pyJoin_cons_eq sep a l
  rw [hr]
  exact append_ne_left a r ha

/-- With a configured key, the helper issues exactly one request, for
every transport outcome. -/
theorem make_n8n_request_reqs (cfg : Config) (t : Transport) (method : Method)
    (endpoint : String) (data : Option Json) (hk : cfg.apiKey ≠ "") :
    (make_n8n_request cfg t method endpoint data).2 =
      [⟨method, cfg.baseUrl ++ "/api/v1/" ++ endpoint, requestBody method data⟩] := by
  unfold make_n8n_request
  rw [if_neg hk]
  cases ht : t ⟨method, cfg.baseUrl ++ "/api/v1/" ++ endpoint, requestBody method data⟩ with
  | failure msg => simp [ht]
  | response status jsonBody textBody =>
    simp only [ht]
    cases method <;> dsimp only <;> (try split) <;> (try split) <;> rfl

/-- Every text successfully rendered for `list_workflows` is non-empty. -/
theorem renderListWorkflows_ok_ne (r : Json) (p : String × Bool)
    (h : renderListWorkflows r = Except.ok p) : p.1 ≠ "" := by
  unfold renderListWorkflows eb at h
  iterate 12 (all_goals (try (beta_reduce at h)); all_goals (try (split at h)))
  all_goals (try (cases h))
  · exact append_ne_left "Error: " _ (by decide)
  · exact (by decide : ("No workflows found in n8n." : String) ≠ "")
  · exact append_ne_left "Found " _ (by decide)

/-- Every text successfully rendered by the standalone `get_workflow`
body is non-empty. -/
theorem renderGetWorkflowBody_ok_ne (wf : Json) (p : String × Bool)
    (h : renderGetWorkflowBody wf = Except.ok p) : p.1 ≠ "" := by
  unfold renderGetWorkflowBody eb at h
  iterate 20 (all_goals (try (beta_reduce at h)); all_goals (try (split at h)))
  all_goals (try (cases h))
  all_goals exact pyJoin_ne _ _ _ (append_ne_left "Workflow: " _ (by decide))

/-- Every text successfully rendered for the standalone `get_workflow`
is non-empty. -/
theorem renderGetWorkflowStandalone_ok_ne (r : Json) (p : String × Bool)
    (h : renderGetWorkflowStandalone r = Except.ok p) : p.1 ≠ "" := by
  unfold renderGetWorkflowStandalone eb at h
  iterate 8 (all_goals (try (beta_reduce at h)); all_goals (try (split at h)))
  all_goals (try (cases h))
  all_goals
    (first
      | exact append_ne_left "Error: " _ (by decide)
      | exact renderGetWorkflowBody_ok_ne _ _ h)

/-- Every text successfully rendered by the SDK `get_workflow` body is
non-empty. -/
theorem renderGetWorkflowSdkBody_ok_ne (wf : Json) (p : String × Bool)
    (h : renderGetWorkflowSdkBody wf = Except.ok p) : p.1 ≠ "" := by
  unfold renderGetWorkflowSdkBody eb at h
  iterate 20 (all_goals (try (beta_reduce at h)); all_goals (try (split at h)))
  all_goals (try (cases h))
  all_goals exact pyJoin_ne _ _ _ (append_ne_left "Workflow: " _ (by decide))

/-- Every text successfully rendered for the SDK `get_workflow` is
non-empty. -/
theorem renderGetWorkflowSdk_ok_ne (r : Json) (p : String × Bool)
    (h : renderGetWorkflowSdk r = Except.ok p) : p.1 ≠ "" := by
  unfold renderGetWorkflowSdk eb at h
  iterate 8 (all_goals (try (beta_reduce at h)); all_goals (try (split at h)))
  all_goals (try (cases h))
  all_goals
    (first
      | exact append_ne_left "Error: " _ (by decide)
      | exact renderGetWorkflowSdkBody_ok_ne _ _ h)

/-- Every text successfully rendered for `execute_workflow` is
non-empty. -/
theorem renderExecute_ok_ne (r : Json) (p : String × Bool)
    (h : renderExecute r = Except.ok p) : p.1 ≠ "" := by
  unfold renderExecute eb at h
  iterate 12 (all_goals (try (beta_reduce at h)); all_goals (try (split at h)))
  all_goals (try (cases h))
  all_goals
    (first
      | exact append_ne_left "Error: " _ (by decide)
      | exact append_ne_left _ _ (append_ne_left _ _
          (append_ne_left "Workflow executed!\nExecution ID: " _ (by decide))))

/-- Every text successfully rendered for `get_execution` is non-empty. -/
theorem renderGetExecution_ok_ne (r : Json) (p : String × Bool)
    (h : renderGetExecution r = Except.ok p) : p.1 ≠ "" := by
  unfold renderGetExecution eb at h
  iterate 14 (all_goals (try (beta_reduce at h)); all_goals (try (split at h)))
  all_goals (try (cases h))
  all_goals
    (first
      | exact append_ne_left "Error: " _ (by decide)
      | exact pyJoin_ne _ _ _ (append_ne_left "Execution ID: " _ (by decide)))

/-- Every text successfully rendered for `activate_workflow` is
non-empty. -/
theorem renderActivate_ok_ne (wid : String) (r : Json) (p : String × Bool)
    (h : renderActivate wid r = Except.ok p) : p.1 ≠ "" := by
  unfold renderActivate eb at h
  iterate 6 (all_goals (try (beta_reduce at h)); all_goals (try (split at h)))
  all_goals (try (cases h))
  all_goals
    (first
      | exact append_ne_left "Error: " _ (by decide)
      | exact append_ne_left _ _ (append_ne_left "Workflow " _ (by decide)))

/-- Every text successfully rendered for `deactivate_workflow` is
non-empty. -/
theorem renderDeactivate_ok_ne (wid : String) (r : Json) (p : String × Bool)
    (h : renderDeactivate wid r = Except.ok p) : p.1 ≠ "" := by
  unfold renderDeactivate eb at h
  iterate 6 (all_goals (try (beta_reduce at h)); all_goals (try (split at h)))
  all_goals (try (cases h))
  all_goals
    (first
      | exact append_ne_left "Error: " _ (by decide)
      | exact append_ne_left _ _ (append_ne_left "Workflow " _ (by decide)))

/-- A mapped render result is a singleton of non-empty text. -/
theorem map_single_ok (x : Except PyExc (String × Bool)) (texts : List String)
    (hx : ∀ p, x = Except.ok p → p.1 ≠ "")
    (h : Except.map (fun p => [p.1]) x = Except.ok texts) :
    texts.length = 1 ∧ ∀ s ∈ texts, s ≠ "" := by
  cases x with
  | error e => simp [Except.map] at h
  | ok p =>
    simp only [Except.map] at h
    cases h
    exact ⟨rfl, by simpa using hx p rfl⟩

/-- On every returning path, `call_tool` yields exactly one text and
that text is non-empty. -/
theorem call_tool_ok (cfg : Config) (t : Transport) (name : String)
    (args : List (String × String)) (texts : List String)
    (h : (call_tool cfg t name args).1 = Except.ok texts) :
    texts.length = 1 ∧ ∀ s ∈ texts, s ≠ "" := by
  unfold call_tool at h
  iterate 10 (all_goals (try (split at h)))
  all_goals (try (dsimp only at h))
  · exact map_single_ok _ _ (fun p hp => renderListWorkflows_ok_ne _ _ hp) h
  · exact map_single_ok _ _ (fun p hp => renderGetWorkflowStandalone_ok_ne _ _ hp) h
  · exact map_single_ok _ _ (fun p hp => renderExecute_ok_ne _ _ hp) h
  · cases h; exact ⟨rfl, by simp⟩
  · exact map_single_ok _ _ (fun p hp => renderExecute_ok_ne _ _ hp) h
  · exact map_single_ok _ _ (fun p hp => renderGetExecution_ok_ne _ _ hp) h
  · exact map_single_ok _ _ (fun p hp => renderActivate_ok_ne _ _ _ hp) h
  · exact map_single_ok _ _ (fun p hp => renderDeactivate_ok_ne _ _ _ hp) h
  · cases h; exact ⟨rfl, by simp [append_ne_left "Unknown tool: " _ (by decide)]⟩

/-- The try/except wrapper produces non-empty text whenever the message
is non-empty and the wrapped render only returns non-empty text. -/
theorem tryExceptR_text_ne (m : String) (x : Except PyExc (String × Bool))
    (hm : m ≠ "") (hx : ∀ p, x = Except.ok p → p.1 ≠ "") :
    (tryExceptR m x).text ≠ "" := by
  cases x with
  | ok p => exact hx p rfl
  | error e => exact append_ne_left m _ hm

/-- Every SDK handler returns a non-empty text on every input and every
transport outcome. -/
theorem sdk_tools_text_ne :
    ∀ f ∈ n8n_server_tools, ∀ (cfg : Config) (t : Transport)
      (args : List (String × String)), ((f cfg t args).1).text ≠ "" := by
  intro f hf
  simp only [n8n_server_tools, List.mem_cons, List.not_mem_nil, or_false] at hf
  rcases hf with h | h | h | h | h | h <;> subst h <;> intro cfg t args <;>
    simp only [sdk_list_workflows, sdk_get_workflow, sdk_execute_workflow,
               sdk_get_execution, sdk_activate_workflow, sdk_deactivate_workflow]
  iterate 6 (all_goals (try split))
  all_goals (try (dsimp only))
  all_goals
    (first
      | exact tryExceptR_text_ne _ _ (by decide) (fun p hp => renderListWorkflows_ok_ne _ _ hp)
      | exact tryExceptR_text_ne _ _ (by decide) (fun p hp => renderGetWorkflowSdk_ok_ne _ _ hp)
      | exact tryExceptR_text_ne _ _ (by decide) (fun p hp => renderExecute_ok_ne _ _ hp)
      | exact tryExceptR_text_ne _ _ (by decide) (fun p hp => renderGetExecution_ok_ne _ _ hp)
      | exact tryExceptR_text_ne _ _ (by decide) (fun p hp => renderActivate_ok_ne _ _ _ hp)
      | exact tryExceptR_text_ne _ _ (by decide) (fun p hp => renderDeactivate_ok_ne _ _ _ hp)
      | exact append_ne_left "Failed to list workflows: " _ (by decide)
      | exact append_ne_left "Failed to get workflow: " _ (by decide)
      | exact append_ne_left "Failed to execute workflow: " _ (by decide)
      | exact append_ne_left "Failed to get execution: " _ (by decide)
      | exact append_ne_left "Failed to activate workflow: " _ (by decide)
      | exact append_ne_left "Failed to deactivate workflow: " _ (by decide)
      | decide)

/-- Claim C2, corrected.  The SDK handlers never raise: every outcome is
one envelope with non-empty text (first conjunct, quantified over the
tool list handed to `create_sdk_mcp_server`).  The standalone
`call_tool` returns exactly one `TextContent` with non-empty text on
every path on which it returns at all (second conjunct), but the
never-raises part of the original claim fails for it: see the
counterexample, where a shape-violating success payload makes
`list_workflows` raise a TypeError. -/
theorem claim_C2_amended :
    (∀ f ∈ n8n_server_tools, ∀ (cfg : Config) (t : Transport)
       (args : List (String × String)), ((f cfg t args).1).text ≠ "") ∧
    (∀ (cfg : Config) (t : Transport) (name : String)
       (args : List (String × String)) (texts : List String),
       (call_tool cfg t name args).1 = Except.ok texts →
       texts.length = 1 ∧ ∀ s ∈ texts, s ≠ "") :=
  ⟨sdk_tools_text_ne, call_tool_ok⟩

/-- Witness for C2: a concrete SDK invocation has non-empty text, and a
concrete standalone invocation returns exactly one non-empty text. -/
theorem claim_C2_witness :
    ((sdk_list_workflows ⟨"http://localhost:5678", ""⟩
        (fun _ => HttpOutcome.failure ("down")) []).1).text ≠ "" ∧
    ((["Error: N8N_API_KEY not configured. Set environment variable N8N_API_KEY."] :
        List String).length = 1 ∧
      ∀ s ∈ (["Error: N8N_API_KEY not configured. Set environment variable N8N_API_KEY."] :
        List String), s ≠ "") :=
  ⟨claim_C2_amended.1 sdk_list_workflows
     (by simp only [n8n_server_tools]; exact List.mem_cons_self _ _) _ _ _,
   claim_C2_amended.2 ⟨"http://localhost:5678", ""⟩
     (fun _ => HttpOutcome.failure ("down")) ("list_workflows") [] _ rfl⟩

/-- Counterexample for C2 as stated: with a 200 response whose `data`
field is the number 5, the standalone `call_tool` raises a TypeError
(the `for wf in workflows` loop on a non-iterable) instead of returning
an envelope — the invocation does not terminate in a ResponseEnvelope. -/
theorem claim_C2_counterexample :
    call_tool ⟨"http://localhost:5678", "key"⟩
      (fun _ => HttpOutcome.response 200 (Except.ok (Json.obj [("data", Json.num 5)])) (""))
      ("list_workflows") [] =
    (Except.error (PyExc.typeError (sQuot ++ "int" ++ sQuot ++ " object is not iterable")),
     [⟨Method.GET, "http://localhost:5678/api/v1/workflows", none⟩]) := rfl

/-- With an empty key the helper returns the configuration error and
issues nothing. -/
theorem make_n8n_request_noKey (cfg : Config) (t : Transport) (method : Method)
    (endpoint : String) (data : Option Json) (hk : cfg.apiKey = "") :
    make_n8n_request cfg t method endpoint data = (errorObj noKeyMsg, []) := by
  unfold make_n8n_request; rw [if_pos hk]

/-- Claim C1, corrected.  With no credential configured, invoking any of
the six known tools returns the ConfigurationError envelope with zero
requests issued — except `execute_workflow` with a present, non-empty,
malformed `input_data`, which fails JSON validation first (see the
counterexample); the configuration check sits inside the request helper
and therefore runs after dispatch lookup and after `input_data`
parsing, and an unknown tool name never reaches it. -/
theorem claim_C1_amended (name : String) (hn : name ∈ sixToolNames)
    (cfg : Config) (t : Transport) (args : List (String × String))
    (hk : cfg.apiKey = "")
    (hx : name = "execute_workflow" →
      (List.lookup ("input_data") args).getD ("\x7b\x7d") = "" ∨
      ((List.lookup ("input_data") args).getD ("\x7b\x7d") ≠ "" ∧
        (json_loads ((List.lookup ("input_data") args).getD ("\x7b\x7d"))).isSome = true)) :
    call_tool cfg t name args =
      (Except.ok ["Error: N8N_API_KEY not configured. Set environment variable N8N_API_KEY."],
       []) := by
  simp only [sixToolNames, List.mem_cons, List.not_mem_nil, or_false] at hn
  rcases hn with h | h | h | h | h | h <;> subst h <;>
    simp only [call_tool, String.reduceEq, reduceIte] <;>
    rw [make_n8n_request_noKey _ _ _ _ _ hk] <;>
    (try rfl)
  rcases hx rfl with hempty | ⟨hne, hsome⟩
  · rw [if_pos hempty]; rfl
  · rw [if_neg hne]
    obtain ⟨j, hj⟩ := Option.isSome_iff_exists.mp hsome
    rw [hj]
    dsimp only
    rw [make_n8n_request_noKey _ _ _ _ _ hk]
    rfl

/-- Witness for C1: with an empty key, `list_workflows` returns the
configuration error envelope and no request. -/
theorem claim_C1_witness :
    call_tool ⟨"http://localhost:5678", ""⟩ (fun _ => HttpOutcome.failure ("down"))
      ("list_workflows") [] =
      (Except.ok ["Error: N8N_API_KEY not configured. Set environment variable N8N_API_KEY."],
       []) :=
  claim_C1_amended ("list_workflows") (by decide)
    ⟨"http://localhost:5678", ""⟩ (fun _ => HttpOutcome.failure ("down")) [] rfl
    (fun h => absurd h (by decide))

/-- Counterexample for C1 as stated: with an empty key,
`execute_workflow` with malformed `input_data` returns the JSON
validation error, not the ConfigurationError envelope — `input_data`
parsing precedes the configuration check. -/
theorem claim_C1_counterexample :
    call_tool ⟨"http://localhost:5678", ""⟩ (fun _ => HttpOutcome.failure ("down"))
      ("execute_workflow") [("workflow_id", "1"), ("input_data", "not-json")] =
      (Except.ok ["Error: input_data must be valid JSON string"], []) ∧
    ("Error: input_data must be valid JSON string" : String) ≠
      "Error: N8N_API_KEY not configured. Set environment variable N8N_API_KEY." :=
  ⟨rfl, by decide⟩

/-- Claim C6, confirmed: an unrecognized tool name yields the
unknown-tool envelope and no network call, for every configuration and
transport. -/
theorem claim_C6 (cfg : Config) (t : Transport) (name : String)
    (args : List (String × String)) (hn : name ∉ sixToolNames) :
    call_tool cfg t name args = (Except.ok ["Unknown tool: " ++ name], []) := by
  simp only [sixToolNames, List.mem_cons, List.not_mem_nil, or_false, not_or] at hn
  obtain ⟨h1, h2, h3, h4, h5, h6⟩ := hn
  unfold call_tool
  rw [if_neg h1, if_neg h2, if_neg h3, if_neg h4, if_neg h5, if_neg h6]

/-- Witness for C6 at the tool name of the testable property. -/
theorem claim_C6_witness :
    call_tool ⟨"http://localhost:5678", "key"⟩ (fun _ => HttpOutcome.failure ("down"))
      ("nonexistent_tool") [] = (Except.ok ["Unknown tool: nonexistent_tool"], []) :=
  claim_C6 ⟨"http://localhost:5678", "key"⟩ (fun _ => HttpOutcome.failure ("down"))
    ("nonexistent_tool") [] (by decide)

/-- Claim C5, confirmed.  With a credential configured: a present,
non-empty, malformed `input_data` yields the validation-error envelope
and no request; an absent or empty `input_data` issues exactly one POST
to `workflows/.../execute` with body the empty object; a present valid
`input_data` issues exactly one POST whose body is the parsed value. -/
theorem claim_C5 (cfg : Config) (t : Transport) (args : List (String × String))
    (hk : cfg.apiKey ≠ "") :
    ((List.lookup ("input_data") args).getD ("\x7b\x7d") ≠ "" →
      json_loads ((List.lookup ("input_data") args).getD ("\x7b\x7d")) = none →
      call_tool cfg t ("execute_workflow") args =
        (Except.ok ["Error: input_data must be valid JSON string"], [])) ∧
    (List.lookup ("input_data") args = none ∨ List.lookup ("input_data") args = some "" →
      (call_tool cfg t ("execute_workflow") args).2 =
        [⟨Method.POST,
          cfg.baseUrl ++ "/api/v1/" ++
            ("workflows/" ++ argStr (List.lookup ("workflow_id") args) ++ "/execute"),
          some (Json.obj [])⟩]) ∧
    (∀ j, (List.lookup ("input_data") args).getD ("\x7b\x7d") ≠ "" →
      json_loads ((List.lookup ("input_data") args).getD ("\x7b\x7d")) = some j →
      (call_tool cfg t ("execute_workflow") args).2 =
        [⟨Method.POST,
          cfg.baseUrl ++ "/api/v1/" ++
            ("workflows/" ++ argStr (List.lookup ("workflow_id") args) ++ "/execute"),
          some j⟩]) := by
  refine ⟨?_, ?_, ?_⟩
  · intro hne hnone
    simp only [call_tool, String.reduceEq, reduceIte]
    rw [if_neg hne, hnone]
  · intro habs
    simp only [call_tool, String.reduceEq, reduceIte]
    rcases habs with h | h
    · rw [h]
      rw [if_neg (by decide : ¬(((none : Option String).getD ("\x7b\x7d")) = ""))]
      simp only [show json_loads ((none : Option String).getD ("\x7b\x7d")) =
                   some (Json.obj []) from by rfl]
      rw [make_n8n_request_reqs _ _ _ _ _ hk]
      rfl
    · rw [h]
      rw [if_pos (show ((some "").getD ("\x7b\x7d")) = "" from rfl)]
      rw [make_n8n_request_reqs _ _ _ _ _ hk]
      rfl
  · intro j hne hsome
    simp only [call_tool, String.reduceEq, reduceIte]
    rw [if_neg hne, hsome]
    dsimp only
    rw [make_n8n_request_reqs _ _ _ _ _ hk]
    rfl

/-- Witness for C5: `execute_workflow` on workflow 1 with no
`input_data` issues one POST with the empty-object body. -/
theorem claim_C5_witness :
    (call_tool ⟨"http://localhost:5678", "key"⟩ (fun _ => HttpOutcome.failure ("down"))
       ("execute_workflow") [("workflow_id", "1")]).2 =
      [⟨Method.POST, "http://localhost:5678/api/v1/workflows/1/execute",
        some (Json.obj [])⟩] :=
  (claim_C5 ⟨"http://localhost:5678", "key"⟩ (fun _ => HttpOutcome.failure ("down"))
      [("workflow_id", "1")] (by decide)).2.1 (Or.inl rfl)

/-- Claim C8, confirmed (under a configured credential):
`activate_workflow` issues exactly one PATCH to `workflows/{id}` with
body `{"active": true}` and `deactivate_workflow` one PATCH with body
`{"active": false}`, for every transport outcome; and on a success
payload (a dict without an `error` key) each renders the fixed
confirmation sentence containing the workflow id. -/
theorem claim_C8 (cfg : Config) (wid : String) (hk : cfg.apiKey ≠ "") :
    (∀ t : Transport, (call_tool cfg t ("activate_workflow") [("workflow_id", wid)]).2 =
      [⟨Method.PATCH, cfg.baseUrl ++ "/api/v1/" ++ ("workflows/" ++ wid),
        some (Json.obj [("active", Json.bool true)])⟩]) ∧
    (∀ t : Transport, (call_tool cfg t ("deactivate_workflow") [("workflow_id", wid)]).2 =
      [⟨Method.PATCH, cfg.baseUrl ++ "/api/v1/" ++ ("workflows/" ++ wid),
        some (Json.obj [("active", Json.bool false)])⟩]) ∧
    (∀ kvs : List (String × Json), (kvs.any fun kv => kv.1 == "error") = false →
      (call_tool cfg (fun _ => HttpOutcome.response 200 (Except.ok (Json.obj kvs)) (""))
        ("activate_workflow") [("workflow_id", wid)]).1 =
        Except.ok ["Workflow " ++ wid ++ " activated successfully!"]) ∧
    (∀ kvs : List (String × Json), (kvs.any fun kv => kv.1 == "error") = false →
      (call_tool cfg (fun _ => HttpOutcome.response 200 (Except.ok (Json.obj kvs)) (""))
        ("deactivate_workflow") [("workflow_id", wid)]).1 =
        Except.ok ["Workflow " ++ wid ++ " deactivated successfully!"]) := by
  refine ⟨?_, ?_, ?_, ?_⟩
  · intro t
    simp only [call_tool, String.reduceEq, reduceIte]
    rw [make_n8n_request_reqs _ _ _ _ _ hk]
    rfl
  · intro t
    simp only [call_tool, String.reduceEq, reduceIte]
    rw [make_n8n_request_reqs _ _ _ _ _ hk]
    rfl
  · intro kvs hno
    simp only [call_tool, String.reduceEq, reduceIte]
    have hmake : make_n8n_request cfg
        (fun _ => HttpOutcome.response 200 (Except.ok (Json.obj kvs)) (""))
        Method.PATCH
        ("workflows/" ++ argStr (List.lookup ("workflow_id") [("workflow_id", wid)]))
        (some (Json.obj [("active", Json.bool true)])) =
        (Json.obj kvs,
         [⟨Method.PATCH,
           cfg.baseUrl ++ "/api/v1/" ++
             ("workflows/" ++ argStr (List.lookup ("workflow_id") [("workflow_id", wid)])),
           requestBody Method.PATCH (some (Json.obj [("active", Json.bool true)]))⟩]) := by
      unfold make_n8n_request
      rw [if_neg hk]
      rfl
    rw [hmake]
    unfold renderActivate
    rw [show pyIn ("error") (Json.obj kvs) = Except.ok false from by
      unfold pyIn; dsimp only; rw [hno]]
    rfl
  · intro kvs hno
    simp only [call_tool, String.reduceEq, reduceIte]
    have hmake : make_n8n_request cfg
        (fun _ => HttpOutcome.response 200 (Except.ok (Json.obj kvs)) (""))
        Method.PATCH
        ("workflows/" ++ argStr (List.lookup ("workflow_id") [("workflow_id", wid)]))
        (some (Json.obj [("active", Json.bool false)])) =
        (Json.obj kvs,
         [⟨Method.PATCH,
           cfg.baseUrl ++ "/api/v1/" ++
             ("workflows/" ++ argStr (List.lookup ("workflow_id") [("workflow_id", wid)])),
           requestBody Method.PATCH (some (Json.obj [("active", Json.bool false)]))⟩]) := by
      unfold make_n8n_request
      rw [if_neg hk]
      rfl
    rw [hmake]
    unfold renderDeactivate
    rw [show pyIn ("error") (Json.obj kvs) = Except.ok false from by
      unfold pyIn; dsimp only; rw [hno]]
    rfl

/-- Witness for C8 at workflow id 42, matching the testable property of
the spec. -/
theorem claim_C8_witness :
    ((call_tool ⟨"http://localhost:5678", "key"⟩
        (fun _ => HttpOutcome.response 200 (Except.ok (Json.obj [])) (""))
        ("activate_workflow") [("workflow_id", "42")]).2 =
      [⟨Method.PATCH, "http://localhost:5678/api/v1/workflows/42",
        some (Json.obj [("active", Json.bool true)])⟩]) ∧
    ((call_tool ⟨"http://localhost:5678", "key"⟩
        (fun _ => HttpOutcome.response 200 (Except.ok (Json.obj [])) (""))
        ("activate_workflow") [("workflow_id", "42")]).1 =
      Except.ok ["Workflow 42 activated successfully!"]) ∧
    ((call_tool ⟨"http://localhost:5678", "key"⟩
        (fun _ => HttpOutcome.response 200 (Except.ok (Json.obj [])) (""))
        ("deactivate_workflow") [("workflow_id", "42")]).1 =
      Except.ok ["Workflow 42 deactivated successfully!"]) :=
  ⟨(claim_C8 ⟨"http://localhost:5678", "key"⟩ ("42") (by decide)).1 _,
   (claim_C8 ⟨"http://localhost:5678", "key"⟩ ("42") (by decide)).2.2.1 [] rfl,
   (claim_C8 ⟨"http://localhost:5678", "key"⟩ ("42") (by decide)).2.2.2 [] rfl⟩

/-- The accepted-status sets of the classification sentence of the
spec, per method (the comparison definition for the refinement claim
C4). -/
def spec_acceptedStatus : Method → Nat → Bool
  | Method.GET, s => s == 200
  | Method.PATCH, s => s == 200
  | Method.POST, s => s == 200 || s == 201
  | Method.DELETE, s => s == 200 || s == 204

/-- Claim C4, corrected.  The classification of each HTTP outcome holds
as claimed for GET, POST and PATCH (accepted status with decodable body
gives the decoded payload; any other status gives the ServiceError text
carrying the status code and the raw body; a connection failure gives
the TransportError text), but a DELETE answered 200 or 204 yields the
fixed dict with a true `success` flag without decoding the response
body. -/
theorem claim_C4_amended (cfg : Config) (t : Transport) (method : Method)
    (endpoint : String) (data : Option Json) (hk : cfg.apiKey ≠ "") :
    (∀ status jsonBody textBody,
      t ⟨method, cfg.baseUrl ++ "/api/v1/" ++ endpoint, requestBody method data⟩ =
        HttpOutcome.response status jsonBody textBody →
      (spec_acceptedStatus method status = true →
        (method ≠ Method.DELETE → ∀ j, jsonBody = Except.ok j →
          make_n8n_request cfg t method endpoint data =
            (j, [⟨method, cfg.baseUrl ++ "/api/v1/" ++ endpoint, requestBody method data⟩])) ∧
        (method = Method.DELETE →
          make_n8n_request cfg t method endpoint data =
            (Json.obj [("success", Json.bool true)],
             [⟨method, cfg.baseUrl ++ "/api/v1/" ++ endpoint, requestBody method data⟩]))) ∧
      (spec_acceptedStatus method status = false →
        make_n8n_request cfg t method endpoint data =
          (errorObj ("HTTP " ++ toString status ++ ": " ++ textBody),
           [⟨method, cfg.baseUrl ++ "/api/v1/" ++ endpoint, requestBody method data⟩]))) ∧
    (∀ msg,
      t ⟨method, cfg.baseUrl ++ "/api/v1/" ++ endpoint, requestBody method data⟩ =
        HttpOutcome.failure msg →
      make_n8n_request cfg t method endpoint data =
        (errorObj ("Request failed: " ++ msg),
         [⟨method, cfg.baseUrl ++ "/api/v1/" ++ endpoint, requestBody method data⟩])) := by
  constructor
  · intro status jsonBody textBody ht
    refine ⟨fun hacc => ⟨fun hnd j hj => ?_, fun hdel => ?_⟩, fun hrej => ?_⟩
    · subst hj
      simp only [make_n8n_request]
      rw [if_neg hk, ht]
      cases method with
      | DELETE => exact absurd rfl hnd
      | GET =>
        simp only [spec_acceptedStatus, beq_iff_eq] at hacc
        subst hacc
        rfl
      | PATCH =>
        simp only [spec_acceptedStatus, beq_iff_eq] at hacc
        subst hacc
        rfl
      | POST =>
        simp only [spec_acceptedStatus, Bool.or_eq_true, beq_iff_eq] at hacc
        dsimp only
        rw [if_pos hacc]
    · subst hdel
      simp only [make_n8n_request]
      rw [if_neg hk, ht]
      simp only [spec_acceptedStatus, Bool.or_eq_true, beq_iff_eq] at hacc
      dsimp only
      rw [if_pos hacc]
    · simp only [make_n8n_request]
      rw [if_neg hk, ht]
      cases method with
      | GET =>
        simp only [spec_acceptedStatus, beq_iff_eq] at hrej
        dsimp only
        rw [if_neg (by simpa using hrej)]
      | PATCH =>
        simp only [spec_acceptedStatus, beq_iff_eq] at hrej
        dsimp only
        rw [if_neg (by simpa using hrej)]
      | POST =>
        simp only [spec_acceptedStatus, Bool.or_eq_true, beq_iff_eq] at hrej
        dsimp only
        rw [if_neg (by simpa using hrej)]
      | DELETE =>
        simp only [spec_acceptedStatus, Bool.or_eq_true, beq_iff_eq] at hrej
        dsimp only
        rw [if_neg (by simpa using hrej)]
  · intro msg ht
    simp only [make_n8n_request]
    rw [if_neg hk, ht]

/-- Witness for C4: a mocked 404 with body `not found` for
`get_workflow` yields the ServiceError dict whose text carries the
status and the raw body. -/
theorem claim_C4_witness :
    make_n8n_request ⟨"http://localhost:5678", "key"⟩
      (fun _ => HttpOutcome.response 404 (Except.error ("no json")) ("not found"))
      Method.GET ("workflows/7") none =
      (errorObj ("HTTP 404: not found"),
       [⟨Method.GET, "http://localhost:5678/api/v1/workflows/7", none⟩]) :=
  ((claim_C4_amended ⟨"http://localhost:5678", "key"⟩
      (fun _ => HttpOutcome.response 404 (Except.error ("no json")) ("not found"))
      Method.GET ("workflows/7") none (by decide)).1
    404 (Except.error ("no json")) ("not found") rfl).2 rfl

/-- Counterexample for C4 as stated: a DELETE answered 200 with a
decodable JSON body yields the fixed `success` dict, not the decoded
body — the DELETE branch never decodes. -/
theorem claim_C4_counterexample :
    make_n8n_request ⟨"http://localhost:5678", "key"⟩
      (fun _ => HttpOutcome.response 200 (Except.ok (Json.obj [("x", Json.num 1)])) ("body"))
      Method.DELETE ("workflows/9") none =
      (Json.obj [("success", Json.bool true)],
       [⟨Method.DELETE, "http://localhost:5678/api/v1/workflows/9", none⟩]) ∧
    Json.obj [("success", Json.bool true)] ≠ Json.obj [("x", Json.num 1)] :=
  ⟨rfl, fun h => by
    injection h with h1
    injection h1 with h2 h3
    injection h2 with h4 h5
    exact absurd h4 (by decide)⟩

/-- Claim C10, confirmed: for GET, POST and PATCH, an accepted success
status whose body fails JSON decoding is caught by the catch-all of the
helper and surfaced as the `Request failed: ...` error dict, not raised
and not shaped as an HTTP-status ServiceError. -/
theorem claim_C10 (cfg : Config) (t : Transport) (method : Method)
    (endpoint : String) (data : Option Json) (status : Nat) (e textBody : String)
    (hk : cfg.apiKey ≠ "")
    (hm : method = Method.GET ∨ method = Method.POST ∨ method = Method.PATCH)
    (hs : spec_acceptedStatus method status = true)
    (ht : t ⟨method, cfg.baseUrl ++ "/api/v1/" ++ endpoint, requestBody method data⟩ =
      HttpOutcome.response status (Except.error e) textBody) :
    make_n8n_request cfg t method endpoint data =
      (errorObj ("Request failed: " ++ e),
       [⟨method, cfg.baseUrl ++ "/api/v1/" ++ endpoint, requestBody method data⟩]) := by
  simp only [make_n8n_request]
  rw [if_neg hk, ht]
  rcases hm with h | h | h <;> subst h
  · simp only [spec_acceptedStatus, beq_iff_eq] at hs
    subst hs
    rfl
  · simp only [spec_acceptedStatus, Bool.or_eq_true, beq_iff_eq] at hs
    dsimp only
    rw [if_pos hs]
  · simp only [spec_acceptedStatus, beq_iff_eq] at hs
    subst hs
    rfl

/-- Witness for C10: a 200 whose body does not decode as JSON. -/
theorem claim_C10_witness :
    make_n8n_request ⟨"http://localhost:5678", "key"⟩
      (fun _ => HttpOutcome.response 200 (Except.error ("Attempt to decode JSON with unexpected mimetype")) ("<html>"))
      Method.GET ("workflows") none =
      (errorObj ("Request failed: Attempt to decode JSON with unexpected mimetype"),
       [⟨Method.GET, "http://localhost:5678/api/v1/workflows", none⟩]) :=
  claim_C10 ⟨"http://localhost:5678", "key"⟩
    (fun _ => HttpOutcome.response 200 (Except.error ("Attempt to decode JSON with unexpected mimetype")) ("<html>"))
    Method.GET ("workflows") none 200 ("Attempt to decode JSON with unexpected mimetype") ("<html>")
    (by decide) (Or.inl rfl) rfl rfl


/-- Claim C9, confirmed: the catalog query is pure and deterministic,
and the six descriptors carry exactly the claimed names, required
arguments and argument sets, in the claimed stable order. -/
theorem claim_C9 :
    (∀ u v : Unit, list_tools u = list_tools v) ∧
    (list_tools ()).map toolSummary =
      [("list_workflows", [], []),
       ("get_workflow", ["workflow_id"], ["workflow_id"]),
       ("execute_workflow", ["workflow_id"], ["workflow_id", "input_data"]),
       ("get_execution", ["execution_id"], ["execution_id"]),
       ("activate_workflow", ["workflow_id"], ["workflow_id"]),
       ("deactivate_workflow", ["workflow_id"], ["workflow_id"])] :=
  ⟨fun u v => by cases u; cases v; rfl, rfl⟩

/-- A well-shaped workflow entry of a `list_workflows` payload: an
optional name, an id, and the active flag. -/
structure WorkflowSummary where
  name : Option String
  id : String
  active : Bool

/-- The JSON encoding of a workflow entry (the name key is omitted when
the name is missing, exercising the `Unnamed` default). -/
def encodeWorkflow (w : WorkflowSummary) : Json :=
  Json.obj ((match w.name with
             | some n => [("name", Json.str n)]
             | none => []) ++
            [("id", Json.str w.id), ("active", Json.bool w.active)])

/-- Modelled from the spec wording: one listing line,
`- name (ID: id) [Active|Inactive]` with missing name defaulting to
`Unnamed`. -/
def specWorkflowLine (w : WorkflowSummary) : String :=
  "- " ++ w.name.getD ("Unnamed") ++ " (ID: " ++ w.id ++ ") [" ++
    (if w.active then "Active" else "Inactive") ++ "]"

/-- Modelled from the spec wording: the whole `list_workflows` text —
the literal no-workflows message on an empty list, otherwise the count
line followed by one line per workflow. -/
def specListWorkflowsText : List WorkflowSummary → String
  | [] => "No workflows found in n8n."
  | ws => "Found " ++ toString ws.length ++ " workflow(s):\n" ++
      pyJoin "\n" (ws.map specWorkflowLine)

/-- Element-wise evaluation of an accumulation loop over encoded
values. -/
theorem pyListComp_map_ok {α β : Type} (f : α → Json) (g : Json → Except PyExc β) (sp : α → β)
    (h : ∀ a, g (f a) = Except.ok (sp a)) (l : List α) :
    pyListComp g (l.map f) = Except.ok (l.map sp) := by
  induction l with
  | nil => rfl
  | cons a rest ih => simp [List.map_cons, pyListComp, h a, ih]

/-- The listing line of the code agrees with the spec line on every encoded
workflow entry. -/
theorem renderWorkflowLine_enc (w : WorkflowSummary) :
    renderWorkflowLine (encodeWorkflow w) = Except.ok (specWorkflowLine w) := by
  cases hn : w.name <;>
    simp [renderWorkflowLine, encodeWorkflow, specWorkflowLine, pyGet, pyStr, eb, hn,
          List.lookup, Json.truthy, Option.getD]

/-- Claim C7, confirmed: on every well-shaped `list_workflows` payload
the rendered text is exactly the spec text — the literal message when
the data list is empty, otherwise the `Found N workflow(s):` count line
followed by one `- name (ID: id) [Active|Inactive]` line per workflow,
with a missing name rendered as `Unnamed`. -/
theorem claim_C7 (ws : List WorkflowSummary) :
    renderListWorkflows (Json.obj [("data", Json.arr (ws.map encodeWorkflow))]) =
      Except.ok (specListWorkflowsText ws, false) := by
  cases ws with
  | nil => rfl
  | cons w rest =>
    have hpre : renderListWorkflows
        (Json.obj [("data", Json.arr ((w :: rest).map encodeWorkflow))]) =
        eb (pyListComp renderWorkflowLine ((w :: rest).map encodeWorkflow)) fun lines =>
          Except.ok ("Found " ++ toString ((w :: rest).map encodeWorkflow).length ++
            " workflow(s):\n" ++ pyJoin "\n" lines, false) := rfl
    rw [hpre, pyListComp_map_ok encodeWorkflow renderWorkflowLine specWorkflowLine
          renderWorkflowLine_enc (w :: rest)]
    simp only [eb_ok, List.length_map]
    rfl

/-- A well-shaped `get_workflow` payload: optional name, id, active
flag, nodes as (name, type) pairs, connection keys, tag names. -/
structure WorkflowDetail where
  name : Option String
  id : String
  active : Bool
  nodes : List (String × String)
  connections : List String
  tags : List String

/-- JSON encoding of a node entry. -/
def encodeNode (n : String × String) : Json :=
  Json.obj [("name", Json.str n.1), ("type", Json.str n.2)]

/-- JSON encoding of a tag entry. -/
def encodeTag (s : String) : Json := Json.obj [("name", Json.str s)]

/-- JSON encoding of a workflow detail (name key omitted when
missing). -/
def encodeDetail (d : WorkflowDetail) : Json :=
  Json.obj ((match d.name with
             | some n => [("name", Json.str n)]
             | none => []) ++
            [("id", Json.str d.id),
             ("active", Json.bool d.active),
             ("nodes", Json.arr (d.nodes.map encodeNode)),
             ("connections", Json.obj (d.connections.map fun k => (k, Json.null))),
             ("tags", Json.arr (d.tags.map encodeTag))])

/-- Optionally wrap a payload in a `data` field, to state both response
shapes the source handles. -/
def wrapData : Bool → Json → Json
  | true, j => Json.obj [("data", j)]
  | false, j => j

/-- Modelled from the spec wording: one node line, `name (type)` with
the two-space indent of the source. -/
def specNodeLine (n : String × String) : String := "  - " ++ n.1 ++ " (" ++ n.2 ++ ")"

/-- Modelled from the spec wording (the rule the standalone adapter
implements): name, id, status, node count, connection count, one line
per node, and a comma-joined tag line when tags exist. -/
def specGetWorkflowTextStandalone (d : WorkflowDetail) : String :=
  pyJoin "\n"
    ((["Workflow: " ++ d.name.getD ("Unnamed"),
       "ID: " ++ d.id,
       "Status: " ++ (if d.active then "Active" else "Inactive"),
       "Nodes: " ++ toString d.nodes.length,
       "Connections: " ++ toString d.connections.length]
      ++ (if d.nodes.isEmpty then [] else "\nNodes in workflow:" :: d.nodes.map specNodeLine))
      ++ (if d.tags.isEmpty then [] else ["\nTags: " ++ pyJoin ", " d.tags]))

/-- The `get_workflow` text of the SDK adapter: same header lines but
no per-node lines and no blank line before the tag line. -/
def specGetWorkflowTextSdk (d : WorkflowDetail) : String :=
  pyJoin "\n"
    (["Workflow: " ++ d.name.getD ("Unnamed"),
      "ID: " ++ d.id,
      "Status: " ++ (if d.active then "Active" else "Inactive"),
      "Nodes: " ++ toString d.nodes.length,
      "Connections: " ++ toString d.connections.length]
     ++ (if d.tags.isEmpty then [] else ["Tags: " ++ pyJoin ", " d.tags]))

/-- An encoded detail carries no `error` key. -/
theorem enc_pyIn_error (d : WorkflowDetail) :
    pyIn ("error") (encodeDetail d) = Except.ok false := by
  cases hn : d.name <;> simp [pyIn, encodeDetail, hn]

/-- An encoded detail carries no `data` key. -/
theorem enc_pyIn_data (d : WorkflowDetail) :
    pyIn ("data") (encodeDetail d) = Except.ok false := by
  cases hn : d.name <;> simp [pyIn, encodeDetail, hn]

theorem enc_get_nodes (d : WorkflowDetail) :
    pyGet (encodeDetail d) ("nodes") (Json.arr []) =
      Except.ok (Json.arr (d.nodes.map encodeNode)) := by
  cases hn : d.name <;> simp [pyGet, encodeDetail, hn, List.lookup]

theorem enc_get_connections (d : WorkflowDetail) :
    pyGet (encodeDetail d) ("connections") (Json.obj []) =
      Except.ok (Json.obj (d.connections.map fun k => (k, Json.null))) := by
  cases hn : d.name <;> simp [pyGet, encodeDetail, hn, List.lookup]

theorem enc_get_name (d : WorkflowDetail) :
    pyGet (encodeDetail d) ("name") (Json.str ("Unnamed")) =
      Except.ok (Json.str (d.name.getD ("Unnamed"))) := by
  cases hn : d.name <;> simp [pyGet, encodeDetail, hn, List.lookup]

theorem enc_get_id (d : WorkflowDetail) :
    pyGet (encodeDetail d) ("id") Json.null = Except.ok (Json.str d.id) := by
  cases hn : d.name <;> simp [pyGet, encodeDetail, hn, List.lookup]

theorem enc_get_active (d : WorkflowDetail) :
    pyGet (encodeDetail d) ("active") Json.null = Except.ok (Json.bool d.active) := by
  cases hn : d.name <;> simp [pyGet, encodeDetail, hn, List.lookup]

theorem enc_get_tags (d : WorkflowDetail) (dflt : Json) :
    pyGet (encodeDetail d) ("tags") dflt =
      Except.ok (Json.arr (d.tags.map encodeTag)) := by
  cases hn : d.name <;> simp [pyGet, encodeDetail, hn, List.lookup]

/-- Joining already-string items succeeds and returns them. -/
theorem strItems_map_str (l : List String) :
    strItems (l.map Json.str) = Except.ok l := by
  induction l with
  | nil => rfl
  | cons a rest ih => simp [strItems, ih]

/-- The node section of the standalone rendering, evaluated on an
encoded node list. -/
theorem nodes_section (nodes : List (String × String)) :
    (if (Json.arr (nodes.map encodeNode)).truthy then
       eb (pyIter (Json.arr (nodes.map encodeNode))) fun nitems =>
       eb (pyListComp renderNodeLine nitems) fun nlines =>
       Except.ok ("\nNodes in workflow:" :: nlines)
     else Except.ok ([] : List String)) =
    Except.ok (if nodes.isEmpty then []
               else "\nNodes in workflow:" :: nodes.map specNodeLine) := by
  cases nodes with
  | nil => rfl
  | cons n rest =>
    rw [if_pos (show (Json.arr ((n :: rest).map encodeNode)).truthy = true from rfl)]
    simp only [show pyIter (Json.arr ((n :: rest).map encodeNode)) =
                 Except.ok ((n :: rest).map encodeNode) from rfl, eb_ok]
    rw [pyListComp_map_ok encodeNode renderNodeLine specNodeLine (fun a => rfl) (n :: rest)]
    rfl

/-- The tag section of the standalone rendering, evaluated on an
encoded tag list. -/
theorem tags_section (tags : List String) :
    (if (Json.arr (tags.map encodeTag)).truthy then
       eb (Except.ok (Json.arr (tags.map encodeTag))) fun tagsList =>
       eb (pyIter tagsList) fun titems =>
       eb (pyListComp (fun tag => pyGet tag ("name") (Json.str (""))) titems) fun tnamesJ =>
       eb (strItems tnamesJ) fun tnames =>
       Except.ok (["\nTags: " ++ pyJoin ", " tnames])
     else Except.ok ([] : List String)) =
    Except.ok (if tags.isEmpty then [] else ["\nTags: " ++ pyJoin ", " tags]) := by
  cases tags with
  | nil => rfl
  | cons tg rest =>
    rw [if_pos (show (Json.arr ((tg :: rest).map encodeTag)).truthy = true from rfl)]
    simp only [eb_ok, show pyIter (Json.arr ((tg :: rest).map encodeTag)) =
                 Except.ok ((tg :: rest).map encodeTag) from rfl]
    rw [pyListComp_map_ok encodeTag (fun tag => pyGet tag ("name") (Json.str (""))) Json.str
          (fun s => rfl) (tg :: rest)]
    simp only [eb_ok]
    rw [strItems_map_str]
    rfl

/-- The standalone `get_workflow` body renders every encoded detail to
the spec text. -/
theorem renderGetWorkflowBody_enc (d : WorkflowDetail) :
    renderGetWorkflowBody (encodeDetail d) =
      Except.ok (specGetWorkflowTextStandalone d, false) := by
  unfold renderGetWorkflowBody
  rw [enc_get_nodes]
  simp only [eb_ok]
  rw [enc_get_connections]
  simp only [eb_ok]
  rw [enc_get_name]
  simp only [eb_ok]
  rw [enc_get_id]
  simp only [eb_ok]
  rw [enc_get_active]
  simp only [eb_ok]
  simp only [show pyLen (Json.arr (d.nodes.map encodeNode)) =
               Except.ok (d.nodes.map encodeNode).length from rfl, eb_ok]
  simp only [show pyLen (Json.obj (d.connections.map fun k => (k, Json.null))) =
               Except.ok (d.connections.map fun k => (k, Json.null)).length from rfl, eb_ok]
  simp only [List.length_map]
  rw [nodes_section]
  simp only [eb_ok]
  rw [enc_get_tags d Json.null]
  simp only [eb_ok]
  rw [enc_get_tags d (Json.arr [])]
  rw [tags_section]
  simp only [eb_ok]
  rfl

/-- The tag section of the SDK rendering, evaluated on an encoded tag
list. -/
theorem tags_section_sdk (tags : List String) :
    (if (Json.arr (tags.map encodeTag)).truthy then
       eb (Except.ok (Json.arr (tags.map encodeTag))) fun tagsList =>
       eb (pyIter tagsList) fun titems =>
       eb (pyListComp (fun tag => pyGet tag ("name") (Json.str (""))) titems) fun tnamesJ =>
       eb (strItems tnamesJ) fun tnames =>
       Except.ok (["Tags: " ++ pyJoin ", " tnames])
     else Except.ok ([] : List String)) =
    Except.ok (if tags.isEmpty then [] else ["Tags: " ++ pyJoin ", " tags]) := by
  cases tags with
  | nil => rfl
  | cons tg rest =>
    rw [if_pos (show (Json.arr ((tg :: rest).map encodeTag)).truthy = true from rfl)]
    simp only [eb_ok, show pyIter (Json.arr ((tg :: rest).map encodeTag)) =
                 Except.ok ((tg :: rest).map encodeTag) from rfl]
    rw [pyListComp_map_ok encodeTag (fun tag => pyGet tag ("name") (Json.str (""))) Json.str
          (fun s => rfl) (tg :: rest)]
    simp only [eb_ok]
    rw [strItems_map_str]
    rfl

/-- The SDK `get_workflow` body renders every encoded detail to the SDK
text. -/
theorem renderGetWorkflowSdkBody_enc (d : WorkflowDetail) :
    renderGetWorkflowSdkBody (encodeDetail d) =
      Except.ok (specGetWorkflowTextSdk d, false) := by
  unfold renderGetWorkflowSdkBody
  rw [enc_get_name]
  simp only [eb_ok]
  rw [enc_get_id]
  simp only [eb_ok]
  rw [enc_get_active]
  simp only [eb_ok]
  rw [enc_get_nodes]
  simp only [eb_ok]
  simp only [show pyLen (Json.arr (d.nodes.map encodeNode)) =
               Except.ok (d.nodes.map encodeNode).length from rfl, eb_ok]
  rw [enc_get_connections]
  simp only [eb_ok]
  simp only [show pyLen (Json.obj (d.connections.map fun k => (k, Json.null))) =
               Except.ok (d.connections.map fun k => (k, Json.null)).length from rfl, eb_ok]
  simp only [List.length_map]
  rw [enc_get_tags d Json.null]
  simp only [eb_ok]
  rw [enc_get_tags d (Json.arr [])]
  rw [tags_section_sdk]
  simp only [eb_ok]
  rfl

/-- An encoded detail has no `data` key, so the SDK unwrap defaults to
the empty dict. -/
theorem enc_get_data (d : WorkflowDetail) :
    pyGet (encodeDetail d) ("data") (Json.obj []) = Except.ok (Json.obj []) := by
  cases hn : d.name <;> simp [pyGet, encodeDetail, hn, List.lookup]

/-- Claim C3, corrected.  The standalone adapter implements the claim
as stated: the rendering is applied to the `data` field when present
and to the raw payload when absent, and shows name, id, status, node
count, connection count, one `name (type)` line per node, and the
comma-joined tag line when tags exist.  The SDK adapter instead always
unwraps `data` (defaulting to the empty dict, so a flat payload renders
as all defaults), renders no per-node lines, and puts no blank line
before its tag line. -/
theorem claim_C3_amended :
    (∀ (d : WorkflowDetail) (wrapped : Bool),
      renderGetWorkflowStandalone (wrapData wrapped (encodeDetail d)) =
        Except.ok (specGetWorkflowTextStandalone d, false)) ∧
    (∀ d : WorkflowDetail,
      renderGetWorkflowSdk (Json.obj [("data", encodeDetail d)]) =
        Except.ok (specGetWorkflowTextSdk d, false)) ∧
    (∀ d : WorkflowDetail,
      renderGetWorkflowSdk (encodeDetail d) =
        Except.ok ("Workflow: Unnamed\nID: None\nStatus: Inactive\nNodes: 0\nConnections: 0",
          false)) := by
  refine ⟨fun d wrapped => ?_, fun d => ?_, fun d => ?_⟩
  · cases wrapped with
    | false =>
      unfold wrapData renderGetWorkflowStandalone
      rw [enc_pyIn_error]
      simp only [eb_ok, Bool.false_eq_true, if_false]
      rw [enc_pyIn_data]
      simp only [eb_ok, Bool.false_eq_true, if_false]
      exact renderGetWorkflowBody_enc d
    | true =>
      unfold wrapData renderGetWorkflowStandalone
      simp only [show pyIn ("error") (Json.obj [("data", encodeDetail d)]) =
                   Except.ok false from rfl, eb_ok, Bool.false_eq_true, if_false]
      simp only [show pyIn ("data") (Json.obj [("data", encodeDetail d)]) =
                   Except.ok true from rfl, eb_ok, if_true]
      simp only [show pyGet (Json.obj [("data", encodeDetail d)]) ("data") (Json.obj []) =
                   Except.ok (encodeDetail d) from rfl, eb_ok]
      exact renderGetWorkflowBody_enc d
  · unfold renderGetWorkflowSdk
    simp only [show pyIn ("error") (Json.obj [("data", encodeDetail d)]) =
                 Except.ok false from rfl, eb_ok, Bool.false_eq_true, if_false]
    simp only [show pyGet (Json.obj [("data", encodeDetail d)]) ("data") (Json.obj []) =
                 Except.ok (encodeDetail d) from rfl, eb_ok]
    exact renderGetWorkflowSdkBody_enc d
  · unfold renderGetWorkflowSdk
    rw [enc_pyIn_error]
    simp only [eb_ok, Bool.false_eq_true, if_false]
    rw [enc_get_data]
    simp only [eb_ok]
    rfl

/-- Counterexample for C3 as stated, against the SDK adapter it also
cites: on a wrapped payload with one node the SDK rendering carries no
per-node line, and on a flat payload (no `data` key) it renders the
defaults instead of the raw payload. -/
theorem claim_C3_counterexample :
    (renderGetWorkflowSdk
      (Json.obj [("data", Json.obj
        [("name", Json.str ("Foo")), ("id", Json.str ("1")), ("active", Json.bool true),
         ("nodes", Json.arr [Json.obj [("name", Json.str ("A")), ("type", Json.str ("t"))]]),
         ("connections", Json.obj [])])]) =
      Except.ok ("Workflow: Foo\nID: 1\nStatus: Active\nNodes: 1\nConnections: 0", false)) ∧
    (renderGetWorkflowStandalone
      (Json.obj [("data", Json.obj
        [("name", Json.str ("Foo")), ("id", Json.str ("1")), ("active", Json.bool true),
         ("nodes", Json.arr [Json.obj [("name", Json.str ("A")), ("type", Json.str ("t"))]]),
         ("connections", Json.obj [])])]) =
      Except.ok
        ("Workflow: Foo\nID: 1\nStatus: Active\nNodes: 1\nConnections: 0\n\nNodes in workflow:\n  - A (t)",
         false)) ∧
    (renderGetWorkflowSdk
      (Json.obj
        [("name", Json.str ("Foo")), ("id", Json.str ("1")), ("active", Json.bool true),
         ("nodes", Json.arr [Json.obj [("name", Json.str ("A")), ("type", Json.str ("t"))]]),
         ("connections", Json.obj [])]) =
      Except.ok ("Workflow: Unnamed\nID: None\nStatus: Inactive\nNodes: 0\nConnections: 0",
        false)) ∧
    ("Workflow: Foo\nID: 1\nStatus: Active\nNodes: 1\nConnections: 0" : String) ≠
      "Workflow: Foo\nID: 1\nStatus: Active\nNodes: 1\nConnections: 0\n\nNodes in workflow:\n  - A (t)" ∧
    ("Workflow: Unnamed\nID: None\nStatus: Inactive\nNodes: 0\nConnections: 0" : String) ≠
      "Workflow: Foo\nID: 1\nStatus: Active\nNodes: 1\nConnections: 0" :=
  ⟨rfl, rfl, rfl, by decide, by decide⟩
